import Mathlib

/-!
Verification of the ride-hailing dispatch backend (socket.js and
routes/walletRoutes.js) against its natural-language specification.

The JavaScript handlers are shallowly embedded as pure Lean functions over an
explicit database/state value.  JavaScript numbers are modelled as rationals
(`Rat`); `Math.round` is modelled by `jsRound`; `parseFloat` results that may
be `NaN` are modelled as `Option Rat` with `none` standing for `NaN`;
possibly-absent string fields are `Option String` with the JavaScript
truthiness convention that both `none` (undefined/null) and `some ""` are
falsy.  Mongo documents are rows in lists; `findOne`/`findOneAndUpdate` are
list search and pointwise update.  Outbound socket emissions are recorded as
an ordered list of `Emission` values (socket.io preserves per-room emission
order, so list order is delivery order for a fixed recipient session).
-/

namespace BeSafe

/-- JavaScript Math.round: half-away rounding toward positive infinity,
Math.round x = floor (x + 1/2). -/
def jsRound (x : Rat) : Int := Int.floor (x + 1/2)

/-- JavaScript string disjunction a || b for a possibly absent string a:
undefined, null and the empty string are falsy and select b. -/
def jsStringOr (a : Option String) (b : String) : String :=
  match a with
  | none => b
  | some s => if s = "" then b else s

/-- JavaScript truthiness of a possibly absent string. -/
def strTruthy (a : Option String) : Bool :=
  match a with
  | none => false
  | some s => s != ""

/-- Fallback per-km prices, from the ternary chain that appears in bookRide
and driverCompletedRide: bike 15, taxi 40, anything else 75. -/
def fallbackPricePerKm (vehicleType : String) : Rat :=
  if vehicleType = "bike" then 15
  else if vehicleType = "taxi" then 40
  else 75

/-- The admin price cache getCurrentPrices, as a map from vehicle type to the
cached per-km price; none models an absent key (undefined lookup).  A NaN
cache entry behaves like 0 after the || 0 coercion and is folded into 0. -/
def PriceCache := String → Option Rat

/-- Per-km price used by driverCompletedRide: pricePerKm is
currentPrices[vehicleType] || 0, and the fallback ternary replaces it when
it is falsy (zero or missing).  A strictly negative cached price is truthy
and is kept. -/
def completionPricePerKm (prices : PriceCache) (vehicleType : String) : Rat :=
  let pricePerKm := (prices vehicleType).getD 0
  if pricePerKm = 0 then fallbackPricePerKm vehicleType else pricePerKm

/-- Authoritative fare recomputed by driverCompletedRide:
Math.round(distanceKm * pricePerKm). -/
def completionFare (prices : PriceCache) (vehicleType : String) (distanceKm : Rat) : Int :=
  jsRound (distanceKm * completionPricePerKm prices vehicleType)

/-- ASCII lowercasing of one character, the effect of
String.prototype.toLowerCase on the ASCII identifiers this backend uses. -/
def lowerChar (c : Char) : Char :=
  if 65 ≤ c.toNat ∧ c.toNat ≤ 90 then Char.ofNat (c.toNat + 32) else c

/-- JavaScript toLowerCase, restricted to ASCII strings. -/
def lowerStr (s : String) : String := String.mk (s.data.map lowerChar)

/-- A latitude/longitude/address triple as sent by the mobile apps. -/
structure Loc where
  lat : Rat
  lng : Rat
  address : Option String := none
deriving Repr, DecidableEq

/-- The value of a Mongo document field that the code queries with $exists /
$ne null: the field can be absent, present but null, or a string. -/
inductive FcmField where
  | absent
  | nullv
  | str (s : String)
deriving Repr, DecidableEq

/-- A Driver document (models/driver/driver).  Only the fields the verified
handlers read or write are carried. -/
structure Driver where
  driverId : String
  vehicleType : Option String := none
  status : String := "Offline"
  wallet : Rat := 0
  fcmToken : FcmField := FcmField.absent
  phoneNumber : Option String := none
  vehicleNumber : Option String := none
deriving Repr, DecidableEq

/-- A Ride document (models/ride).  rideType holds the vehicle type written
at creation; vehicleType is the legacy alternative field the completion
handler also consults.  user is the passenger reference (stringified
ObjectId); userId is the legacy alternative.  internalId models the Mongo
underscore-id used by findById callers. -/
structure Ride where
  raidId : String
  internalId : String := ""
  user : Option String := none
  userId : Option String := none
  customerId : Option String := none
  name : Option String := none
  userMobile : Option String := none
  rideType : Option String := none
  vehicleType : Option String := none
  paymentMethod : Option String := none
  paymentStatus : Option String := none
  fare : Option Rat := none
  otp : String := ""
  status : String := "pending"
  driverId : Option String := none
  driverName : Option String := none
  userData : Option String := none
  userDataComplete : Bool := false
  actualFare : Option Int := none
  actualDistance : Option Rat := none
  actualPickup : Option String := none
  actualDrop : Option String := none
  pickup : Option Loc := none
  dropoff : Option Loc := none
deriving Repr, DecidableEq

/-- A passenger (Registration / User) document.  wallet is the field the
socket completion handler mutates; walletBalance is the field the
credit-ride REST route mutates; both are possibly absent numbers guarded
by a || 0 coercion in the code. -/
structure UserReg where
  userId : String
  customerId : Option String := none
  wallet : Option Rat := none
  walletBalance : Option Rat := none
deriving Repr, DecidableEq

/-- A ledger Transaction document as created by the credit-ride route. -/
structure Transaction where
  userId : String
  rideId : Option String := none
  type : String
  amount : Rat
  method : String
  description : String := ""
  balanceAfter : Rat
deriving Repr, DecidableEq

/-- The persistent and process-local state the embedded handlers touch:
the Mongo collections, the durable RaidId sequence counter, the in-memory
deduplication map recentRideEmissions (rideId to unix-millis of the last
fan-out) and the in-memory processingRides set. -/
structure DB where
  rides : List Ride := []
  drivers : List Driver := []
  users : List UserReg := []
  transactions : List Transaction := []
  raidSeq : Nat := 100000
  recentRideEmissions : List (String × Nat) := []
  processingRides : List String := []
deriving Repr, DecidableEq

/-- One outbound socket emission.  room is the socket.io target (a user room,
a driver room, a vehicle-type room, or a socket id for direct emits); toAll
marks a global io.emit broadcast.  Only the payload fields the claims
inspect are carried. -/
structure Emission where
  event : String
  room : String
  toAll : Bool := false
  status : Option String := none
  fare : Option Rat := none
  balance : Option Rat := none
deriving Repr, DecidableEq

/-- Vehicle-type normalization (vehicleType || taxi string).toLowerCase()
shared by bookRide, sendFCMNotifications and registerDriver. -/
def normalizeVehicleType (vt : Option String) : String := lowerStr (jsStringOr vt "taxi")

/-- Vehicle type the completion handler derives from the ride document:
(ride.rideType || ride.vehicleType || taxi string).toLowerCase(). -/
def rideVehicleType (r : Ride) : String :=
  lowerStr (jsStringOr r.rideType (jsStringOr r.vehicleType "taxi"))

/-- JavaScript a || b for two possibly absent strings (a?.toString() || b). -/
def jsOrOpt (a b : Option String) : Option String :=
  match a with
  | none => b
  | some s => if s = "" then b else some s

/-- Left pad with the zero digit to width six (padStart(6, zero digit)). -/
def padStart6 (s : String) : String :=
  if s.length < 6 then String.mk (List.replicate (6 - s.length) '0') ++ s else s

/-- generateSequentialRaidId: atomic $inc on the durable RaidId counter,
reset to 100000 once the incremented value exceeds 999999, and RID plus the
zero-padded six-digit sequence.  Returns the identifier and the counter
value left in the store.  The store-error fallback branch (timestamp plus
random digits) is not modelled: the store is total in this embedding. -/
def generateSequentialRaidId (seq : Nat) : String × Nat :=
  let seq1 := seq + 1
  if seq1 > 999999 then ("RID" ++ padStart6 (toString (100000 : Nat)), 100000)
  else ("RID" ++ padStart6 (toString seq1), seq1)

/-- Payload of the driverCompletedRide event.  distance is the numeric value
of the client field (none models NaN or absence); fare is the
client-supplied fare, which the handler only logs. -/
structure CompleteData where
  rideId : String
  driverId : String
  distance : Option Rat := none
  fare : Option Rat := none
  actualPickup : Option String := none
  actualDrop : Option String := none
deriving Repr, DecidableEq

/-- Acknowledgement sent back to the driver by driverCompletedRide. -/
structure CompleteAck where
  success : Bool
  fare : Option Int := none
  newWalletBalance : Option Rat := none
deriving Repr, DecidableEq

/-- State, ordered outbound emissions and acknowledgement produced by one
driverCompletedRide invocation. -/
structure CompleteResult where
  db : DB
  emissions : List Emission
  ack : CompleteAck
deriving Repr, DecidableEq

/-- The driverCompletedRide handler (socket.js).  Steps, in source order:
find the ride by RAID_ID; recompute the fare from the parsed distance and
the price cache, ignoring the client fare; persist the completed ride with
the verified actualFare; set the driver Live and increment the driver
wallet by the verified fare; when the passenger reference is truthy, look
the passenger up, debit the passenger wallet when paymentMethod is wallet,
and emit walletUpdate, then emit rideCompleted (payload carrying status
completed), then billAlert, then rideStatusUpdate, in that source order;
acknowledge with the verified fare and the driver's new balance.  The
in-memory rides mirror cleanup is elided as unread by any claim. -/
def driverCompletedRide (prices : PriceCache) (db : DB) (data : CompleteData) :
    CompleteResult :=
  match db.rides.find? (fun r => r.raidId == data.rideId) with
  | none => { db := db, emissions := [], ack := { success := false } }
  | some ride =>
    let vehicleType := rideVehicleType ride
    let distanceKm := data.distance.getD 0
    let finalFare := completionFare prices vehicleType distanceKm
    let db1 : DB := { db with rides := db.rides.map (fun r =>
      if r.raidId == data.rideId then
        { r with status := "completed", actualDistance := data.distance,
                 actualFare := some finalFare, actualPickup := data.actualPickup,
                 actualDrop := data.actualDrop }
      else r) }
    let updatedDriver := (db1.drivers.find? (fun d => d.driverId == data.driverId)).map
      (fun d => { d with status := "Live", wallet := d.wallet + (finalFare : Rat) })
    let db2 : DB := { db1 with drivers := db1.drivers.map (fun d =>
      if d.driverId == data.driverId then
        { d with status := "Live", wallet := d.wallet + (finalFare : Rat) }
      else d) }
    let userId := jsOrOpt ride.user ride.userId
    let ack : CompleteAck :=
      { success := true, fare := some finalFare,
        newWalletBalance := some ((updatedDriver.map (fun d => d.wallet)).getD 0) }
    if strTruthy userId then
      let uid := userId.getD ""
      let walletPay := strTruthy ride.paymentMethod &&
        lowerStr (ride.paymentMethod.getD "") == "wallet"
      let userStep :=
        match db2.users.find? (fun u => u.userId == uid) with
        | none => (db2, ([] : List Emission))
        | some u =>
          let uAfterWallet : Option Rat :=
            if walletPay then some (u.wallet.getD 0 - (finalFare : Rat)) else u.wallet
          let db3 : DB :=
            if walletPay then
              { db2 with users := db2.users.map (fun v : UserReg =>
                  if v.userId == uid then { v with wallet := uAfterWallet } else v) }
            else db2
          (db3, [{ event := "walletUpdate", room := uid,
                   balance := some (uAfterWallet.getD 0) }])
      { db := userStep.1,
        emissions := userStep.2 ++
          [ { event := "rideCompleted", room := uid, status := some "completed",
              fare := some (finalFare : Rat) },
            { event := "billAlert", room := uid, fare := some (finalFare : Rat) },
            { event := "rideStatusUpdate", room := uid, status := some "completed",
              fare := some (finalFare : Rat) } ],
        ack := ack }
    else
      { db := db2, emissions := [], ack := ack }

/-- Payload of the acceptRide event. -/
structure AcceptData where
  rideId : String
  driverId : String
  driverName : Option String := none
  driverLat : Option Rat := none
  driverLng : Option Rat := none
  vehicleType : Option String := none
deriving Repr, DecidableEq

/-- Acknowledgement of the acceptance handlers. -/
structure AcceptAck where
  success : Bool
  message : String := ""
deriving Repr, DecidableEq

/-- Result of one acceptance-handler invocation. -/
structure AcceptResult where
  db : DB
  emissions : List Emission
  ack : AcceptAck
deriving Repr, DecidableEq

/-- The acceptRide handler (socket.js).  Inside a committed session
transaction the code runs findOne on RAID_ID with status pending or
searching and then findOneAndUpdate under the same condition, setting
status accepted and the winning driver; the sequential embedding fuses the
two into one atomic compare-and-set, which is what the committed
transaction guarantees.  On success it emits rideAccepted to the passenger
room and rideAlreadyAccepted to the vehicle-type room (socket.to, which
excludes the winning socket — the exclusion is not claim-relevant and is
not modelled). -/
def acceptRide (db : DB) (data : AcceptData) : AcceptResult :=
  match db.rides.find? (fun r => r.raidId == data.rideId &&
      (r.status == "pending" || r.status == "searching")) with
  | none =>
    { db := db, emissions := [],
      ack := { success := false,
               message := "Ride is no longer available. Another driver may have accepted it." } }
  | some ride =>
    let updatedRide : Ride :=
      { ride with status := "accepted", driverId := some data.driverId,
                  driverName := data.driverName }
    let db1 : DB := { db with rides := db.rides.map (fun r =>
      if r.raidId == data.rideId && (r.status == "pending" || r.status == "searching")
      then { r with status := "accepted", driverId := some data.driverId,
                    driverName := data.driverName }
      else r) }
    let userEms : List Emission :=
      if strTruthy updatedRide.user then
        [ { event := "rideAccepted", room := updatedRide.user.getD "" } ]
      else []
    let vehicleRoom := "drivers_" ++ lowerStr (jsStringOr updatedRide.rideType "taxi")
    { db := db1,
      emissions := userEms ++ [ { event := "rideAlreadyAccepted", room := vehicleRoom } ],
      ack := { success := true, message := "Ride accepted successfully" } }

/-- Payload of the driverAcceptedRideWithData event; userData is an opaque
client-supplied blob. -/
structure AcceptWithData where
  rideId : String
  driverId : String
  userId : Option String := none
  userData : Option String := none
  driverName : Option String := none
deriving Repr, DecidableEq

/-- The driverAcceptedRideWithData handler (socket.js): findOneAndUpdate on
RAID_ID alone — with no status guard — setting status accepted, driverId
and the client-supplied userData.  It fails only when no ride has the given
RAID_ID; any existing assignment is overwritten. -/
def driverAcceptedRideWithData (db : DB) (data : AcceptWithData) : AcceptResult :=
  match db.rides.find? (fun r => r.raidId == data.rideId) with
  | none =>
    { db := db, emissions := [], ack := { success := false, message := "Ride not found" } }
  | some ride =>
    let updatedRide : Ride :=
      { ride with status := "accepted", driverId := some data.driverId,
                  userData := data.userData, userDataComplete := true }
    let db1 : DB := { db with rides := db.rides.map (fun r =>
      if r.raidId == data.rideId then
        { r with status := "accepted", driverId := some data.driverId,
                 userData := data.userData, userDataComplete := true }
      else r) }
    let userEms : List Emission :=
      if strTruthy updatedRide.user then
        [ { event := "rideAcceptedWithData", room := updatedRide.user.getD "" } ]
      else []
    { db := db1, emissions := userEms,
      ack := { success := true, message := "User data confirmed and stored" } }

/-- The effective Mongo filter on fcmToken in sendFCMNotifications.  The
literal query object spells $ne twice (first null, then the empty string);
in JavaScript the later key wins, so the effective filter is: field present
(a present-but-null token also passes) and different from the empty
string. -/
def fcmQueryPasses (t : FcmField) : Bool :=
  match t with
  | FcmField.absent => false
  | FcmField.nullv => true
  | FcmField.str s => s != ""

/-- Length of the token string; non-string field values count as zero. -/
def fcmTokenLength (t : FcmField) : Nat :=
  match t with
  | FcmField.str s => s.length
  | _ => 0

/-- JavaScript truthiness of the token field. -/
def fcmTruthy (t : FcmField) : Bool :=
  match t with
  | FcmField.str s => s != ""
  | _ => false

/-- Drivers matched by the sendFCMNotifications store query: vehicleType
equal to the lowercased ride type, status Live or online or available, and
a token passing the effective filter. -/
def fcmDriversQuery (drivers : List Driver) (vt : Option String) : List Driver :=
  let normalizedVehicleType := normalizeVehicleType vt
  drivers.filter (fun d =>
    d.vehicleType == some normalizedVehicleType &&
    (d.status == "Live" || d.status == "online" || d.status == "available") &&
    fcmQueryPasses d.fcmToken)

/-- Drivers whose tokens are actually handed to the push sender: the queried
set further filtered to truthy tokens longer than ten characters. -/
def fcmPushRecipients (drivers : List Driver) (vt : Option String) : List Driver :=
  (fcmDriversQuery drivers vt).filter (fun d =>
    fcmTruthy d.fcmToken && decide (10 < fcmTokenLength d.fcmToken))

/-- Client payload of the bookRide event.  distance is the numeric value of
the client field, none modelling a non-numeric parseFloat result. -/
structure BookData where
  userId : Option String := none
  customerId : Option String := none
  userName : Option String := none
  userMobile : Option String := none
  pickup : Option Loc := none
  dropoff : Option Loc := none
  vehicleType : Option String := none
  estimatedPrice : Option Rat := none
  distance : Option Rat := none
  travelTime : Option String := none
  wantReturn : Bool := false
deriving Repr, DecidableEq

/-- Acknowledgement of bookRide; alreadySent is false when the field is
absent from the callback object. -/
structure BookAck where
  success : Bool
  rideId : Option String := none
  otp : Option String := none
  fare : Option Rat := none
  alreadySent : Bool := false
  message : String := ""
deriving Repr, DecidableEq

/-- Result of one bookRide invocation; pushRecipients records which stored
drivers the push-notification attempt addressed. -/
structure BookResult where
  db : DB
  emissions : List Emission
  pushRecipients : List Driver
  ack : BookAck
deriving Repr, DecidableEq

/-- The bookRide handler (socket.js).  calcRidePrice stands for the external
ridePriceController.calculateRidePrice (none models a NaN result); randOtp
stands for the random four-digit draw; now is Date.now() in milliseconds.
The pipeline follows the source order: vehicle-type normalization, price
with non-positive/NaN fallback, raidId allocation, otp derivation, the
processingRides guard, required-field validation, the duplicate-RAID_ID
read, the Ride insert, the push-notification attempt, then the five-second
dedup check guarding a single room-targeted newRideRequest emission.  The
finally clause removes the generated rideId from processingRides on every
path.  The in-memory rides mirror, the user-location tracking map and the
location-sample insert are elided as unread by any claim; the Mongoose
ValidationError and duplicate-key catch branches are unreachable in this
sequential, type-correct embedding. -/
def bookRide (calcRidePrice : String → Option Rat → Option Rat) (randOtp : String)
    (now : Nat) (db : DB) (data : BookData) : BookResult :=
  let normalizedVehicleType := normalizeVehicleType data.vehicleType
  let distanceKm := data.distance
  let fallbackFare : Option Rat :=
    distanceKm.map (fun km => ((jsRound (km * fallbackPricePerKm normalizedVehicleType) : Int) : Rat))
  let finalPrice : Option Rat :=
    match calcRidePrice normalizedVehicleType distanceKm with
    | none => fallbackFare
    | some p => if p ≤ 0 then fallbackFare else some p
  let idAlloc := generateSequentialRaidId db.raidSeq
  let rideId := idAlloc.1
  let db0 : DB := { db with raidSeq := idAlloc.2 }
  let otp :=
    match data.customerId with
    | some cid => if 4 ≤ cid.length then cid.drop (cid.length - 4) else randOtp
    | none => randOtp
  if db0.processingRides.contains rideId then
    { db := { db0 with processingRides := db0.processingRides.erase rideId },
      emissions := [], pushRecipients := [],
      ack := { success := false, message := "Ride is already being processed" } }
  else
    let dbP : DB := { db0 with processingRides := rideId :: db0.processingRides }
    if !(strTruthy data.userId && strTruthy data.customerId && strTruthy data.userName
         && data.pickup.isSome && data.dropoff.isSome) then
      { db := { dbP with processingRides := dbP.processingRides.erase rideId },
        emissions := [], pushRecipients := [],
        ack := { success := false, message := "Missing required fields" } }
    else
      match dbP.rides.find? (fun r => r.raidId == rideId) with
      | some existingRide =>
        { db := { dbP with processingRides := dbP.processingRides.erase rideId },
          emissions := [], pushRecipients := [],
          ack := { success := true, rideId := some rideId, otp := some existingRide.otp,
                   message := "Ride already exists" } }
      | none =>
        let newRide : Ride :=
          { raidId := rideId, user := data.userId, customerId := data.customerId,
            name := data.userName, userMobile := some (jsStringOr data.userMobile "N/A"),
            rideType := some normalizedVehicleType, fare := finalPrice, otp := otp,
            status := "pending", pickup := data.pickup, dropoff := data.dropoff }
        let db1 : DB := { dbP with rides := dbP.rides ++ [newRide] }
        let recipients := fcmPushRecipients db1.drivers (some normalizedVehicleType)
        let dedupSkip :=
          match db1.recentRideEmissions.lookup rideId with
          | some t0 => decide (now - t0 < 5000)
          | none => false
        if dedupSkip then
          { db := { db1 with processingRides := db1.processingRides.erase rideId },
            emissions := [], pushRecipients := recipients,
            ack := { success := true, rideId := some rideId, alreadySent := true,
                     message := "Ride request already sent (deduplicated)" } }
        else
          let db2 : DB := { db1 with recentRideEmissions :=
            (rideId, now) :: db1.recentRideEmissions.filter (fun p => p.1 != rideId) }
          { db := { db2 with processingRides := db2.processingRides.erase rideId },
            emissions := [ { event := "newRideRequest",
                             room := "drivers_" ++ normalizedVehicleType,
                             fare := finalPrice } ],
            pushRecipients := recipients,
            ack := { success := true, rideId := some rideId, otp := some otp,
                     fare := finalPrice, message := "Ride booked successfully!" } }

/-- The room a driver session joins in registerDriver: the vehicle type is
re-read from the Driver collection (the client-supplied value is used only
when the driver row is missing), lowercased, and the socket joins the room
drivers_ plus that type — the only room a driver session joins at
registration. -/
def registeredVehicleType (db : DB) (driverId : String)
    (clientVehicleType : Option String) : String :=
  let actualVehicleType :=
    match db.drivers.find? (fun d => d.driverId == driverId) with
    | some driver => jsStringOr driver.vehicleType "taxi"
    | none => jsStringOr clientVehicleType "taxi"
  lowerStr actualVehicleType

/-- The room that registration joins: drivers_ plus the lowercased stored
vehicle type. -/
def registerDriverRoom (db : DB) (driverId : String) (clientVehicleType : Option String) :
    String :=
  "drivers_" ++ registeredVehicleType db driverId clientVehicleType

/-- Acknowledgement of the requestRideOTP event. -/
structure OtpAck where
  success : Bool
  otp : Option String := none
  message : Option String := none
deriving Repr, DecidableEq

/-- Result of one requestRideOTP invocation. -/
structure OtpResult where
  emissions : List Emission
  ack : OtpAck
deriving Repr, DecidableEq

/-- The requestRideOTP handler (socket.js): looks the ride up by RAID_ID and
returns its stored otp to whichever session asked.  callerSocket is only
the target of the direct rideOTPUpdate emit; the handler reads nothing
else from the session and performs no driver or passenger check. -/
def requestRideOTP (db : DB) (callerSocket : String) (rideId : Option String) : OtpResult :=
  if strTruthy rideId then
    match db.rides.find? (fun r => r.raidId == rideId.getD "") with
    | none =>
      { emissions := [], ack := { success := false, message := some "Ride not found" } }
    | some ride =>
      { emissions := [ { event := "rideOTPUpdate", room := callerSocket } ],
        ack := { success := true, otp := some ride.otp } }
  else
    { emissions := [], ack := { success := false, message := some "No ride ID provided" } }

/-- Acknowledgement of the credit-ride REST route, with the HTTP status. -/
structure CreditAck where
  success : Bool
  httpStatus : Nat := 200
  walletBalance : Option Rat := none
deriving Repr, DecidableEq

/-- Result of one credit-ride invocation. -/
structure CreditResult where
  db : DB
  emissions : List Emission
  ack : CreditAck
deriving Repr, DecidableEq

/-- POST /wallet/credit-ride (routes/walletRoutes.js).  The handler body
spells out a credit (find the ride, find the user, add the amount to
walletBalance, write one Transaction, mark the ride paid, emit
walletUpdate), but the module never requires or defines Ride, User,
Transaction or io — it requires only express, the wallet controller and the
auth middleware — so the first statement, Ride.findById, throws
ReferenceError on every invocation; the catch-all answers HTTP 500 with no
state change and no emission.  The parameters mirror the request-body
fields the handler destructures before throwing; userIdResolved is the
body userId with the authenticated fallback already applied. -/
def creditRide (db : DB) (_rideId : String) (_amount : Rat) (_userIdResolved : String) :
    CreditResult :=
  { db := db, emissions := [], ack := { success := false, httpStatus := 500 } }

/-! Concrete sample states used by the claim witnesses and counterexamples. -/

/-- Price cache with no stored prices: every lookup takes the fallback. -/
def noPrices : PriceCache := fun _ => none

/-- Price cache holding a strictly negative per-km price for taxi. -/
def negTaxiPrices : PriceCache := fun vt => if vt = "taxi" then some (-40) else none

/-- A started bike ride paid in cash, assigned to DRV001, passenger U1. -/
def cashRide : Ride :=
  { raidId := "RID000101", user := some "U1", rideType := some "bike",
    paymentMethod := some "cash", fare := some 15, otp := "0065", status := "started",
    driverId := some "DRV001" }

/-- The assigned driver of the sample rides, wallet 400. -/
def sampleDriver : Driver :=
  { driverId := "DRV001", vehicleType := some "bike", status := "onRide", wallet := 400 }

/-- The sample passenger, wallet balance zero. -/
def sampleUser : UserReg := { userId := "U1", wallet := some 0 }

/-- State holding the cash ride, its driver and its passenger. -/
def cashDB : DB := { rides := [cashRide], drivers := [sampleDriver], users := [sampleUser] }

/-- Completion payload for the cash ride: one kilometre driven, the client
claiming a fare of 999. -/
def cashCompleteData : CompleteData :=
  { rideId := "RID000101", driverId := "DRV001", distance := some 1, fare := some 999 }

/-- The cash ride rebooked with paymentMethod wallet. -/
def walletRide : Ride :=
  { cashRide with raidId := "RID000102", paymentMethod := some "wallet" }

/-- State holding the wallet-paid ride, its driver and its passenger. -/
def walletDB : DB :=
  { rides := [walletRide], drivers := [sampleDriver], users := [sampleUser] }

/-- Completion payload for the wallet-paid ride. -/
def walletCompleteData : CompleteData :=
  { rideId := "RID000102", driverId := "DRV001", distance := some 1, fare := some 999 }

/-- A ride already accepted by DRV001. -/
def acceptedRide : Ride :=
  { raidId := "RID000201", user := some "U1", rideType := some "bike",
    status := "accepted", driverId := some "DRV001", otp := "0065" }

/-- State holding only the already-accepted ride. -/
def acceptedDB : DB := { rides := [acceptedRide] }

/-- A second driver re-sending acceptance data for the accepted ride. -/
def overwriteData : AcceptWithData :=
  { rideId := "RID000201", driverId := "DRV002", userId := some "U1",
    userData := some "client blob" }

/-- A complete, valid bookRide payload for a one-kilometre bike ride. -/
def bookPayload : BookData :=
  { userId := some "U1", customerId := some "CUS0065", userName := some "sugumar",
    userMobile := some "9876543210",
    pickup := some { lat := 11, lng := 77, address := some "A" },
    dropoff := some { lat := 12, lng := 78, address := some "B" },
    vehicleType := some "bike", distance := some 1 }

/-- The external price controller returning a fixed positive price. -/
def fixedPrice : String → Option Rat → Option Rat := fun _ _ => some 81

/-- Empty initial state with the sequence counter at its initial 100000. -/
def bookDB : DB := {}

/-- The book payload with the required user reference missing. -/
def bookPayloadNoUser : BookData := { bookPayload with userId := none }

/-- State whose dedup map already records a fresh fan-out for the raidId the
next allocation will produce. -/
def dedupDB : DB := { raidSeq := 100000, recentRideEmissions := [("RID100001", 500)] }

/-- A ride addressed by its internal id for the credit-ride route. -/
def creditRideDoc : Ride := { raidId := "RID000301", internalId := "X301", user := some "U2" }

/-- The passenger credited by the credit-ride route, balance 100. -/
def creditUser : UserReg := { userId := "U2", walletBalance := some 100 }

/-- State for the credit-ride route sample. -/
def creditDB : DB := { rides := [creditRideDoc], users := [creditUser] }

/-- A second driver trying to accept the already-accepted ride through
acceptRide. -/
def acceptTakenData : AcceptData := { rideId := "RID000201", driverId := "DRV002" }

/-- A still-pending ride, not yet assigned to any driver. -/
def pendingRide : Ride :=
  { raidId := "RID000202", user := some "U1", rideType := some "bike",
    status := "pending", otp := "0065" }

/-- State holding only the pending ride. -/
def pendingDB : DB := { rides := [pendingRide] }

/-- DRV001 accepting the pending ride. -/
def firstAccept : AcceptData := { rideId := "RID000202", driverId := "DRV001" }

/-- DRV002 contending for the same ride. -/
def secondAccept : AcceptData := { rideId := "RID000202", driverId := "DRV002" }

/-- An online bike driver holding a long push token. -/
def fcmDriver : Driver :=
  { driverId := "DRV010", vehicleType := some "bike", status := "online",
    fcmToken := FcmField.str "tok-12345678901" }

/-- State holding only the push-notifiable bike driver. -/
def fcmDB : DB := { drivers := [fcmDriver] }

/-- The fan-out emission bookRide produces for the sample bike booking. -/
def bikeRequestEmission : Emission :=
  { event := "newRideRequest", room := "drivers_bike", fare := some 81 }

/-! Helper lemmas shared by the claim theorems. -/

theorem toNat_ofNatAux (n : Nat) (h : n.isValidChar) : (Char.ofNatAux n h).toNat = n := by
  simp [Char.ofNatAux, Char.toNat, UInt32.toNat]

theorem lowerChar_toNat (c : Char) (h : 65 ≤ c.toNat ∧ c.toNat ≤ 90) :
    (lowerChar c).toNat = c.toNat + 32 := by
  have hv : (c.toNat + 32).isValidChar := Or.inl (by omega)
  unfold lowerChar
  rw [if_pos h]
  unfold Char.ofNat
  rw [dif_pos hv]
  exact toNat_ofNatAux _ hv

theorem lowerChar_idem (c : Char) : lowerChar (lowerChar c) = lowerChar c := by
  by_cases h : 65 ≤ c.toNat ∧ c.toNat ≤ 90
  · have ht := lowerChar_toNat c h
    conv_lhs => rw [lowerChar]
    rw [if_neg (by omega)]
  · have hcc : lowerChar c = c := by rw [lowerChar, if_neg h]
    rw [hcc, hcc]

theorem lowerStr_idem (s : String) : lowerStr (lowerStr s) = lowerStr s := by
  unfold lowerStr
  simp only [List.map_map]
  have hc : lowerChar ∘ lowerChar = lowerChar := funext lowerChar_idem
  rw [hc]

theorem lowerStr_eq_empty_iff (s : String) : lowerStr s = "" ↔ s = "" := by
  constructor
  · intro h
    have hd : s.data.map lowerChar = [] := congrArg String.data h
    exact String.ext (by simp [List.map_eq_nil_iff.mp hd])
  · intro h
    subst h
    rfl

theorem find?_update {α : Type} (l : List α) (p : α → Bool) (f : α → α)
    (hf : ∀ a, p a = true → p (f a) = true) :
    (l.map (fun a => if p a then f a else a)).find? p = (l.find? p).map f := by
  induction l with
  | nil => rfl
  | cons x xs ih =>
    by_cases hx : p x = true
    · simp [List.find?, hx, hf x hx]
    · simp only [List.map_cons, if_neg hx]
      rw [List.find?_cons_of_neg _ hx, List.find?_cons_of_neg _ hx]
      exact ih

theorem append_left_cancel_str {s a b : String} (h : s ++ a = s ++ b) : a = b := by
  have hd := congrArg String.data h
  simp only [String.data_append] at hd
  exact String.ext (List.append_cancel_left hd)

theorem jsStringOr_ne_empty (a : Option String) (b : String) (hb : b ≠ "") :
    jsStringOr a b ≠ "" := by
  unfold jsStringOr
  match a with
  | none => exact hb
  | some s =>
    by_cases hs : s = ""
    · simp [hs, hb]
    · simp [hs]

theorem normalizeVehicleType_fix (vt : Option String) :
    normalizeVehicleType (some (normalizeVehicleType vt)) = normalizeVehicleType vt := by
  unfold normalizeVehicleType
  have hne : lowerStr (jsStringOr vt "taxi") ≠ "" := by
    intro h
    exact jsStringOr_ne_empty vt "taxi" (by decide) ((lowerStr_eq_empty_iff _).mp h)
  rw [jsStringOr]
  simp only [if_neg hne]
  exact lowerStr_idem _

theorem mem_fcmPushRecipients {drivers : List Driver} {vt : Option String} {d : Driver}
    (hd : d ∈ fcmPushRecipients drivers vt) :
    d.vehicleType = some (normalizeVehicleType vt) ∧
    (d.status = "Live" ∨ d.status = "online" ∨ d.status = "available") ∧
    ∃ s, d.fcmToken = FcmField.str s ∧ 10 < s.length ∧ s ≠ "" := by
  simp only [fcmPushRecipients, fcmDriversQuery, List.mem_filter] at hd
  rcases hd with ⟨⟨hmem, hq⟩, hlen⟩
  simp only [Bool.and_eq_true, Bool.or_eq_true, beq_iff_eq] at hq hlen
  rcases hq with ⟨⟨hvt, hst⟩, htok⟩
  refine ⟨hvt, by tauto, ?_⟩
  rcases hfc : d.fcmToken with _ | _ | s
  · rw [hfc] at hlen; simp [fcmTruthy] at hlen
  · rw [hfc] at hlen; simp [fcmTruthy] at hlen
  · rw [hfc] at hlen
    rcases hlen with ⟨htr, hl⟩
    simp only [fcmTokenLength, decide_eq_true_eq] at hl
    simp only [fcmTruthy, bne_iff_ne, ne_eq] at htr
    exact ⟨s, rfl, hl, htr⟩

/-! Claim theorems. -/

/-- C1: completion emission order at the passenger session.  The claim says
billAlert is emitted strictly before rideCompleted and that the
rideCompleted payload carries no terminal status field; the handler in fact
emits rideCompleted first — with payload status completed — then billAlert,
then rideStatusUpdate, as this evaluation of driverCompletedRide on a
concrete completed ride shows (the repository documentation, which promises
billAlert first, disagrees with the code here). -/
theorem c1_completion_emission_order :
    ((driverCompletedRide noPrices cashDB cashCompleteData).emissions.map
        (fun e => (e.event, e.room, e.status))) =
      [("walletUpdate", "U1", none),
        ("rideCompleted", "U1", some "completed"),
        ("billAlert", "U1", none),
        ("rideStatusUpdate", "U1", some "completed")] := by
  decide

/-- C2 counterexample: driverRef is not write-once.  On a ride already
accepted by DRV001, the driverAcceptedRideWithData handler — an accept path
that marks the ride accepted — succeeds and silently reassigns driverId to
DRV002, so an accept attempt observing a non-pending status does change the
ride. -/
theorem c2_driver_accepted_overwrites_counterexample :
    acceptedDB.rides.map Ride.status = ["accepted"] ∧
    acceptedDB.rides.map Ride.driverId = [some "DRV001"] ∧
    (driverAcceptedRideWithData acceptedDB overwriteData).ack.success = true ∧
    (driverAcceptedRideWithData acceptedDB overwriteData).db.rides.map Ride.driverId =
      [some "DRV002"] ∧
    (driverAcceptedRideWithData acceptedDB overwriteData).db.rides.map Ride.status =
      ["accepted"] := by
  decide

/-- C2 (amended): the acceptRide handler alone is a compare-and-set with a
single winner.  When every ride carrying the requested raidId has a status
outside pending and searching, acceptRide fails with the ride-taken message
and returns the state unchanged; whenever it reports success, some stored
ride with that raidId was observed in status pending or searching, and that
ride is now stored as accepted with the winning driverId; and after one
successful acceptance, any further acceptRide for the same raidId — by any
driver — fails, so at most one acceptance succeeds through this handler. -/
theorem c2_accept_cas (db : DB) (data : AcceptData) :
    ((∀ r ∈ db.rides, r.raidId = data.rideId →
        r.status ≠ "pending" ∧ r.status ≠ "searching") →
      acceptRide db data =
        { db := db, emissions := [],
          ack := { success := false,
                   message := "Ride is no longer available. Another driver may have accepted it." } }) ∧
    ((acceptRide db data).ack.success = true →
      ∃ r ∈ db.rides, r.raidId = data.rideId ∧
        (r.status = "pending" ∨ r.status = "searching")) ∧
    ((acceptRide db data).ack.success = true →
      ∃ r ∈ db.rides, r.raidId = data.rideId ∧
        (r.status = "pending" ∨ r.status = "searching") ∧
        { r with status := "accepted", driverId := some data.driverId,
                 driverName := data.driverName } ∈ (acceptRide db data).db.rides) ∧
    (∀ data2 : AcceptData, data2.rideId = data.rideId →
      (acceptRide db data).ack.success = true →
      (acceptRide (acceptRide db data).db data2).ack.success = false) := by
  refine ⟨?_, ?_, ?_, ?_⟩
  · intro hall
    have hnone : db.rides.find? (fun r => r.raidId == data.rideId &&
        (r.status == "pending" || r.status == "searching")) = none := by
      rw [List.find?_eq_none]
      intro r hrmem
      by_cases hid : r.raidId = data.rideId
      · rcases hall r hrmem hid with ⟨h1, h2⟩
        simp [hid, h1, h2]
      · simp [hid]
    unfold acceptRide
    rw [hnone]
  · intro hs
    rcases hfind : db.rides.find? (fun r => r.raidId == data.rideId &&
        (r.status == "pending" || r.status == "searching")) with _ | r
    · unfold acceptRide at hs
      rw [hfind] at hs
      simp at hs
    · have hmem := List.mem_of_find?_eq_some hfind
      have hp := List.find?_some hfind
      simp only [Bool.and_eq_true, Bool.or_eq_true, beq_iff_eq] at hp
      exact ⟨r, hmem, hp.1, hp.2⟩
  · intro hs
    rcases hfind : db.rides.find? (fun r => r.raidId == data.rideId &&
        (r.status == "pending" || r.status == "searching")) with _ | r
    · unfold acceptRide at hs
      rw [hfind] at hs
      simp at hs
    · have hmem := List.mem_of_find?_eq_some hfind
      have hpb := List.find?_some hfind
      have hp := hpb
      simp only [Bool.and_eq_true, Bool.or_eq_true, beq_iff_eq] at hp
      refine ⟨r, hmem, hp.1, hp.2, ?_⟩
      have hr1 : (acceptRide db data).db.rides = db.rides.map
          (fun x => if x.raidId == data.rideId &&
              (x.status == "pending" || x.status == "searching") then
            { x with status := "accepted", driverId := some data.driverId,
                     driverName := data.driverName }
          else x) := by
        unfold acceptRide
        rw [hfind]
      rw [hr1]
      refine List.mem_map.mpr ⟨r, hmem, ?_⟩
      rw [if_pos hpb]
  · intro data2 h2 hs
    rcases hfind : db.rides.find? (fun r => r.raidId == data.rideId &&
        (r.status == "pending" || r.status == "searching")) with _ | r
    · unfold acceptRide at hs
      rw [hfind] at hs
      simp at hs
    · have hr1 : (acceptRide db data).db.rides = db.rides.map
          (fun x => if x.raidId == data.rideId &&
              (x.status == "pending" || x.status == "searching") then
            { x with status := "accepted", driverId := some data.driverId,
                     driverName := data.driverName }
          else x) := by
        unfold acceptRide
        rw [hfind]
      have hnone : (acceptRide db data).db.rides.find?
          (fun r => r.raidId == data2.rideId &&
            (r.status == "pending" || r.status == "searching")) = none := by
        rw [hr1, List.find?_eq_none]
        intro x hx
        rcases List.mem_map.mp hx with ⟨r0, hr0, rfl⟩
        by_cases hp0 : (r0.raidId == data.rideId &&
            (r0.status == "pending" || r0.status == "searching")) = true
        · rw [if_pos hp0]
          simp
        · rw [if_neg hp0]
          rw [h2]
          simpa using hp0
      have hfail : ∀ (dbx : DB), dbx.rides.find?
          (fun r => r.raidId == data2.rideId &&
            (r.status == "pending" || r.status == "searching")) = none →
          (acceptRide dbx data2).ack.success = false := by
        intro dbx hn
        unfold acceptRide
        rw [hn]
      exact hfail _ hnone

/-- C2 witness: the compare-and-set hypothesis holds for the concrete
already-accepted ride, where acceptRide refuses DRV002 without touching
the state; and on a concrete pending ride DRV001's acceptance succeeds
after which DRV002's contending acceptRide fails. -/
theorem c2_accept_cas_witness :
    (∀ r ∈ acceptedDB.rides, r.raidId = acceptTakenData.rideId →
      r.status ≠ "pending" ∧ r.status ≠ "searching") ∧
    acceptRide acceptedDB acceptTakenData =
      { db := acceptedDB, emissions := [],
        ack := { success := false,
                 message := "Ride is no longer available. Another driver may have accepted it." } } ∧
    (acceptRide pendingDB firstAccept).ack.success = true ∧
    secondAccept.rideId = firstAccept.rideId ∧
    (acceptRide (acceptRide pendingDB firstAccept).db secondAccept).ack.success = false :=
  ⟨by decide, (c2_accept_cas acceptedDB acceptTakenData).1 (by decide),
    by decide, by decide,
    (c2_accept_cas pendingDB firstAccept).2.2.2 secondAccept (by decide) (by decide)⟩

/-- C3: the ride_fare credit on completion writes no Transaction.  On a
concrete completed ride the driver wallet is incremented by the recomputed
fare (400 to 415) while the Transaction collection stays empty, although
the repository documentation requires every wallet debit/credit to create a
Transaction entry.  The credit-ride REST route the claim cites creates no
Transaction either: its module never brings the Ride, User, Transaction or
io names into scope, so every invocation throws and answers 500 with no
state change, as the final conjuncts show. -/
theorem c3_ride_fare_credit_without_transaction :
    (driverCompletedRide noPrices cashDB cashCompleteData).db.drivers.map
        (fun d => d.wallet) = [415] ∧
    (driverCompletedRide noPrices cashDB cashCompleteData).db.transactions = [] ∧
    cashDB.transactions = [] ∧
    (driverCompletedRide noPrices cashDB cashCompleteData).ack.success = true ∧
    (creditRide creditDB "X301" 81 "U2").ack =
      { success := false, httpStatus := 500, walletBalance := none } ∧
    (creditRide creditDB "X301" 81 "U2").db = creditDB ∧
    (creditRide creditDB "X301" 81 "U2").db.transactions = [] ∧
    (creditRide creditDB "X301" 81 "U2").emissions = [] := by
  have hfind : cashDB.rides.find?
      (fun r => r.raidId == cashCompleteData.rideId) = some cashRide := by decide
  have hvt : rideVehicleType cashRide = "bike" := by decide
  have hfare : completionFare noPrices "bike" (cashCompleteData.distance.getD 0) = 15 := by
    norm_num [completionFare, completionPricePerKm, noPrices, fallbackPricePerKm, jsRound,
      cashCompleteData, Int.floor_eq_iff]
  refine ⟨?_, by decide, by decide, by decide, by decide, by decide, by decide, by decide⟩
  simp only [driverCompletedRide, hfind, hvt, hfare]
  simp [cashDB, cashRide, cashCompleteData, sampleDriver, sampleUser, jsOrOpt, strTruthy,
    (by decide : lowerStr "cash" = "cash")]
  norm_num

/-- C4 counterexample: the passenger wallet goes negative.  Completing a
wallet-paid ride for a passenger whose balance is 0 debits the recomputed
fare 15 with no balance validation, committing a balance of minus 15. -/
theorem c4_negative_balance_counterexample :
    sampleUser.wallet = some 0 ∧
    (driverCompletedRide noPrices walletDB walletCompleteData).db.users.map
        (fun v => v.wallet) = [some (-15)] ∧
    (driverCompletedRide noPrices walletDB walletCompleteData).ack.success = true ∧
    ((-15 : Rat) < 0) := by
  have hfind : walletDB.rides.find?
      (fun r => r.raidId == walletCompleteData.rideId) = some walletRide := by decide
  have hvt : rideVehicleType walletRide = "bike" := by decide
  have hfare : completionFare noPrices "bike" (walletCompleteData.distance.getD 0) = 15 := by
    norm_num [completionFare, completionPricePerKm, noPrices, fallbackPricePerKm, jsRound,
      walletCompleteData, Int.floor_eq_iff]
  refine ⟨by decide, ?_, by decide, by norm_num⟩
  simp only [driverCompletedRide, hfind, hvt, hfare]
  simp [walletDB, walletRide, cashRide, sampleUser, jsOrOpt, strTruthy,
    (by decide : lowerStr "wallet" = "wallet")]

/-- C4 (amended): the wallet-payment debit on completion is unconditional.
Whenever the completed ride pays by wallet and the passenger row exists,
the new stored balance is exactly the old balance minus the recomputed fare
— no balance-sufficiency check guards the subtraction — and the emitted
walletUpdate carries that unchecked difference. -/
theorem c4_passenger_debit_unchecked (prices : PriceCache) (db : DB) (data : CompleteData)
    (ride : Ride) (u : UserReg) (uid : String)
    (hr : db.rides.find? (fun r => r.raidId == data.rideId) = some ride)
    (huid : jsOrOpt ride.user ride.userId = some uid)
    (hne : uid ≠ "")
    (hpm : strTruthy ride.paymentMethod = true)
    (hw : lowerStr (ride.paymentMethod.getD "") = "wallet")
    (hu : db.users.find? (fun v => v.userId == uid) = some u) :
    (driverCompletedRide prices db data).db.users.find? (fun v => v.userId == uid) =
      some { u with wallet := some (u.wallet.getD 0 -
        ((completionFare prices (rideVehicleType ride) (data.distance.getD 0) : Int) : Rat)) } ∧
    (driverCompletedRide prices db data).emissions.head? =
      some { event := "walletUpdate", room := uid,
             balance := some (u.wallet.getD 0 -
               ((completionFare prices (rideVehicleType ride) (data.distance.getD 0) : Int) : Rat)) } := by
  simp only [driverCompletedRide, hr, huid]
  have ht : strTruthy (some uid) = true := by simp [strTruthy, hne]
  rw [ht]
  simp only [if_true, Option.getD_some, hu, hpm, hw]
  constructor
  · dsimp only
    simp only [Bool.true_and, beq_self_eq_true, if_true]
    rw [find?_update _ _ _ (fun a ha => by simpa using ha), hu]
    rfl
  · dsimp only
    simp [Bool.true_and, beq_self_eq_true]

/-- C4 witness: the unchecked-debit theorem applied to the concrete
wallet-paid ride with passenger balance 0. -/
theorem c4_passenger_debit_unchecked_witness :
    (walletDB.rides.find? (fun r => r.raidId == walletCompleteData.rideId) =
      some walletRide) ∧
    (walletDB.users.find? (fun v => v.userId == "U1") = some sampleUser) ∧
    (driverCompletedRide noPrices walletDB walletCompleteData).db.users.find?
        (fun v => v.userId == "U1") =
      some { sampleUser with wallet := some (sampleUser.wallet.getD 0 -
        ((completionFare noPrices (rideVehicleType walletRide)
          (walletCompleteData.distance.getD 0) : Int) : Rat)) } :=
  ⟨by decide, by decide,
    (c4_passenger_debit_unchecked noPrices walletDB walletCompleteData walletRide
      sampleUser "U1" (by decide) (by decide) (by decide) (by decide) (by decide)
      (by decide)).1⟩

/-- C5: completion recomputes the authoritative fare.  With the ride and
driver rows found, the acknowledgement carries exactly
round(distanceKm times the per-km price for the ride's vehicle type), the
persisted ride's actualFare equals that value, the driver wallet is
credited by exactly that value, and the result is invariant under the
client-supplied fare field. -/
theorem c5_complete_recomputes_fare (prices : PriceCache) (db : DB) (data : CompleteData)
    (ride : Ride) (driver : Driver)
    (hr : db.rides.find? (fun r => r.raidId == data.rideId) = some ride)
    (hd : db.drivers.find? (fun d => d.driverId == data.driverId) = some driver) :
    (driverCompletedRide prices db data).ack =
      { success := true,
        fare := some (completionFare prices (rideVehicleType ride) (data.distance.getD 0)),
        newWalletBalance := some (driver.wallet +
          ((completionFare prices (rideVehicleType ride) (data.distance.getD 0) : Int) : Rat)) } ∧
    ((driverCompletedRide prices db data).db.rides.find?
        (fun r => r.raidId == data.rideId)).map Ride.actualFare =
      some (some (completionFare prices (rideVehicleType ride) (data.distance.getD 0))) ∧
    (driverCompletedRide prices db data).db.drivers.find?
        (fun d => d.driverId == data.driverId) =
      some { driver with
             status := "Live",
             wallet := driver.wallet +
               ((completionFare prices (rideVehicleType ride) (data.distance.getD 0) : Int) : Rat) } ∧
    (∀ g, driverCompletedRide prices db { data with fare := g } =
      driverCompletedRide prices db data) := by
  refine ⟨?_, ?_, ?_, fun g => rfl⟩
  · simp only [driverCompletedRide, hr]
    repeat' split
    all_goals simp_all [hd]
  · simp only [driverCompletedRide, hr]
    repeat' split
    all_goals
      dsimp only
      rw [find?_update _ _ _ (fun a ha => by simpa using ha), hr]
      rfl
  · simp only [driverCompletedRide, hr]
    repeat' split
    all_goals
      dsimp only
      rw [find?_update _ _ _ (fun a ha => by simpa using ha), hd]
      rfl

/-- C5 witness: the recomputation theorem applied to the concrete cash ride
(one kilometre on a bike, client claiming fare 999). -/
theorem c5_complete_recomputes_fare_witness :
    (cashDB.rides.find? (fun r => r.raidId == cashCompleteData.rideId) = some cashRide) ∧
    (cashDB.drivers.find? (fun d => d.driverId == cashCompleteData.driverId) =
      some sampleDriver) ∧
    (driverCompletedRide noPrices cashDB cashCompleteData).ack =
      { success := true,
        fare := some (completionFare noPrices (rideVehicleType cashRide)
          (cashCompleteData.distance.getD 0)),
        newWalletBalance := some (sampleDriver.wallet +
          ((completionFare noPrices (rideVehicleType cashRide)
            (cashCompleteData.distance.getD 0) : Int) : Rat)) } :=
  ⟨by decide, by decide,
    (c5_complete_recomputes_fare noPrices cashDB cashCompleteData cashRide sampleDriver
      (by decide) (by decide)).1⟩

/-- C6: the bookRide fan-out is vehicle-type scoped.  Every newRideRequest
emission is room-targeted (no global broadcast) at exactly
drivers_ plus the normalized vehicle type; every push-notification
recipient is a stored driver with that vehicle type, status Live, online or
available, and a non-empty token longer than ten characters; and any driver
session whose registration joined it to the emission's room has a
registered vehicle type equal to the ride's. -/
theorem c6_fanout_vehicle_type_filtered (calcRidePrice : String → Option Rat → Option Rat)
    (randOtp : String) (now : Nat) (db : DB) (data : BookData) :
    (∀ e ∈ (bookRide calcRidePrice randOtp now db data).emissions,
        e.event = "newRideRequest" →
          e.room = "drivers_" ++ normalizeVehicleType data.vehicleType ∧ e.toAll = false) ∧
    (∀ d ∈ (bookRide calcRidePrice randOtp now db data).pushRecipients,
        d.vehicleType = some (normalizeVehicleType data.vehicleType) ∧
        (d.status = "Live" ∨ d.status = "online" ∨ d.status = "available") ∧
        ∃ s, d.fcmToken = FcmField.str s ∧ 10 < s.length ∧ s ≠ "") ∧
    (∀ (db2 : DB) (did : String) (cvt : Option String) (e : Emission),
        e ∈ (bookRide calcRidePrice randOtp now db data).emissions →
        e.event = "newRideRequest" →
        registerDriverRoom db2 did cvt = e.room →
        registeredVehicleType db2 did cvt = normalizeVehicleType data.vehicleType) := by
  have h1 : (∀ e ∈ (bookRide calcRidePrice randOtp now db data).emissions,
      e.event = "newRideRequest" →
        e.room = "drivers_" ++ normalizeVehicleType data.vehicleType ∧ e.toAll = false) := by
    intro e he hev
    simp only [bookRide] at he
    repeat' split at he
    all_goals simp_all
  refine ⟨h1, ?_, ?_⟩
  · intro d hd
    simp only [bookRide] at hd
    repeat' split at hd
    all_goals
      dsimp only at hd
      first
      | simp only [List.not_mem_nil] at hd
      | (have h := mem_fcmPushRecipients hd
         rwa [normalizeVehicleType_fix] at h)
  · intro db2 did cvt e he hev hroom
    have h2 := (h1 e he hev).1
    rw [h2] at hroom
    exact append_left_cancel_str hroom

/-- C6 witness: the fan-out theorem applied to a concrete bike booking with
one online bike driver holding a long token: the single emission targets
drivers_bike and the driver is a push recipient of the right type. -/
theorem c6_fanout_vehicle_type_filtered_witness :
    bikeRequestEmission ∈ (bookRide fixedPrice "1234" 1000 fcmDB bookPayload).emissions ∧
    fcmDriver ∈ (bookRide fixedPrice "1234" 1000 fcmDB bookPayload).pushRecipients ∧
    (bikeRequestEmission.room = "drivers_" ++ normalizeVehicleType bookPayload.vehicleType ∧
      bikeRequestEmission.toAll = false) ∧
    (fcmDriver.vehicleType = some (normalizeVehicleType bookPayload.vehicleType) ∧
      (fcmDriver.status = "Live" ∨ fcmDriver.status = "online" ∨
        fcmDriver.status = "available") ∧
      ∃ s, fcmDriver.fcmToken = FcmField.str s ∧ 10 < s.length ∧ s ≠ "") :=
  ⟨by decide, by decide,
    (c6_fanout_vehicle_type_filtered fixedPrice "1234" 1000 fcmDB bookPayload).1
      bikeRequestEmission (by decide) (by decide),
    (c6_fanout_vehicle_type_filtered fixedPrice "1234" 1000 fcmDB bookPayload).2.1
      fcmDriver (by decide)⟩

/-- C7 counterexample: bookRide is not idempotent on the payload.  Submitting
the identical payload twice, one second apart, allocates two distinct
raidIds, both calls fan out newRideRequest, and the second acknowledgement
does not carry alreadySent. -/
theorem c7_identical_payload_not_idempotent_counterexample :
    (bookRide fixedPrice "1234" 1000 bookDB bookPayload).ack.rideId = some "RID100001" ∧
    (bookRide fixedPrice "1234" 2000
        (bookRide fixedPrice "1234" 1000 bookDB bookPayload).db bookPayload).ack.rideId =
      some "RID100002" ∧
    (bookRide fixedPrice "1234" 1000 bookDB bookPayload).ack.rideId ≠
      (bookRide fixedPrice "1234" 2000
        (bookRide fixedPrice "1234" 1000 bookDB bookPayload).db bookPayload).ack.rideId ∧
    (bookRide fixedPrice "1234" 2000
        (bookRide fixedPrice "1234" 1000 bookDB bookPayload).db bookPayload).ack.alreadySent =
      false ∧
    (bookRide fixedPrice "1234" 1000 bookDB bookPayload).emissions.map Emission.event =
      ["newRideRequest"] ∧
    (bookRide fixedPrice "1234" 2000
        (bookRide fixedPrice "1234" 1000 bookDB bookPayload).db bookPayload).emissions.map
      Emission.event = ["newRideRequest"] ∧
    2000 - 1000 < 5000 := by
  decide

/-- C7 (amended): the five-second dedup window suppresses re-emission only
for the same raidId.  When the raidId the call allocates already has a
dedup entry younger than five seconds, the call acknowledges success with
alreadySent true, returns that same raidId, and emits nothing. -/
theorem c7_dedup_same_raid_id_only (calcRidePrice : String → Option Rat → Option Rat)
    (randOtp : String) (now t0 : Nat) (db : DB) (data : BookData)
    (hproc : db.processingRides.contains (generateSequentialRaidId db.raidSeq).1 = false)
    (hvalid : (strTruthy data.userId && strTruthy data.customerId && strTruthy data.userName
      && data.pickup.isSome && data.dropoff.isSome) = true)
    (hnew : db.rides.find? (fun r => r.raidId == (generateSequentialRaidId db.raidSeq).1) = none)
    (hdup : db.recentRideEmissions.lookup (generateSequentialRaidId db.raidSeq).1 = some t0)
    (hwin : now - t0 < 5000) :
    (bookRide calcRidePrice randOtp now db data).ack.success = true ∧
    (bookRide calcRidePrice randOtp now db data).ack.alreadySent = true ∧
    (bookRide calcRidePrice randOtp now db data).ack.rideId =
      some (generateSequentialRaidId db.raidSeq).1 ∧
    (bookRide calcRidePrice randOtp now db data).emissions = [] := by
  simp only [bookRide, hproc, hvalid, hnew, hdup]
  simp [hwin]

/-- C7 witness: the dedup theorem applied to a state whose dedup map already
holds a 500-millisecond-old entry for the raidId the call allocates. -/
theorem c7_dedup_same_raid_id_only_witness :
    (dedupDB.processingRides.contains (generateSequentialRaidId dedupDB.raidSeq).1 = false) ∧
    (dedupDB.recentRideEmissions.lookup (generateSequentialRaidId dedupDB.raidSeq).1 =
      some 500) ∧
    (1000 - 500 < 5000) ∧
    (bookRide fixedPrice "1234" 1000 dedupDB bookPayload).ack.alreadySent = true ∧
    (bookRide fixedPrice "1234" 1000 dedupDB bookPayload).emissions = [] :=
  ⟨by decide, by decide, by decide,
    (c7_dedup_same_raid_id_only fixedPrice "1234" 1000 500 dedupDB bookPayload
      (by decide) (by decide) (by decide) (by decide) (by decide)).2.1,
    (c7_dedup_same_raid_id_only fixedPrice "1234" 1000 500 dedupDB bookPayload
      (by decide) (by decide) (by decide) (by decide) (by decide)).2.2.2⟩

/-- C8 counterexample: a rejected booking still consumes a sequence number.
With the user reference missing, the acknowledgement fails and no Ride is
persisted, yet the durable raidId counter advances from 100000 to 100001,
because allocation precedes validation. -/
theorem c8_sequence_consumed_counterexample :
    bookDB.raidSeq = 100000 ∧
    (bookRide fixedPrice "1234" 1000 bookDB bookPayloadNoUser).ack.success = false ∧
    (bookRide fixedPrice "1234" 1000 bookDB bookPayloadNoUser).db.rides = [] ∧
    (bookRide fixedPrice "1234" 1000 bookDB bookPayloadNoUser).db.raidSeq = 100001 := by
  decide

/-- C8 (amended): validation rejects with no state change except the
sequence.  A payload failing the required-field check (user reference,
customer id, user name, pickup or drop missing) is refused in the
acknowledgement; rides, transactions, users, drivers, the dedup map and the
processing set are untouched, but the raidId counter has already moved,
because allocation happens before validation.  (vehicleType is not among
the checked fields: a missing vehicleType defaults to taxi.) -/
theorem c8_validation_after_allocation (calcRidePrice : String → Option Rat → Option Rat)
    (randOtp : String) (now : Nat) (db : DB) (data : BookData)
    (hproc : db.processingRides.contains (generateSequentialRaidId db.raidSeq).1 = false)
    (hinvalid : (strTruthy data.userId && strTruthy data.customerId && strTruthy data.userName
      && data.pickup.isSome && data.dropoff.isSome) = false) :
    (bookRide calcRidePrice randOtp now db data).ack.success = false ∧
    (bookRide calcRidePrice randOtp now db data).ack.message = "Missing required fields" ∧
    (bookRide calcRidePrice randOtp now db data).emissions = [] ∧
    (bookRide calcRidePrice randOtp now db data).pushRecipients = [] ∧
    (bookRide calcRidePrice randOtp now db data).db.rides = db.rides ∧
    (bookRide calcRidePrice randOtp now db data).db.transactions = db.transactions ∧
    (bookRide calcRidePrice randOtp now db data).db.users = db.users ∧
    (bookRide calcRidePrice randOtp now db data).db.drivers = db.drivers ∧
    (bookRide calcRidePrice randOtp now db data).db.processingRides = db.processingRides ∧
    (bookRide calcRidePrice randOtp now db data).db.recentRideEmissions =
      db.recentRideEmissions ∧
    (bookRide calcRidePrice randOtp now db data).db.raidSeq =
      (generateSequentialRaidId db.raidSeq).2 ∧
    (bookRide calcRidePrice randOtp now db data).db.raidSeq ≠ db.raidSeq := by
  have hseq : (generateSequentialRaidId db.raidSeq).2 ≠ db.raidSeq := by
    unfold generateSequentialRaidId
    by_cases h : db.raidSeq + 1 > 999999
    · simp only [if_pos h]
      omega
    · simp only [if_neg h]
      omega
  simp only [bookRide, hproc, hinvalid]
  simp [List.erase_cons_head, hseq]

/-- C8 witness: the post-allocation-validation theorem applied to the
concrete payload missing its user reference. -/
theorem c8_validation_after_allocation_witness :
    (bookDB.processingRides.contains (generateSequentialRaidId bookDB.raidSeq).1 = false) ∧
    ((strTruthy bookPayloadNoUser.userId && strTruthy bookPayloadNoUser.customerId &&
      strTruthy bookPayloadNoUser.userName && bookPayloadNoUser.pickup.isSome &&
      bookPayloadNoUser.dropoff.isSome) = false) ∧
    (bookRide fixedPrice "1234" 1000 bookDB bookPayloadNoUser).ack.success = false ∧
    (bookRide fixedPrice "1234" 1000 bookDB bookPayloadNoUser).db.raidSeq ≠ bookDB.raidSeq :=
  ⟨by decide, by decide,
    (c8_validation_after_allocation fixedPrice "1234" 1000 bookDB bookPayloadNoUser
      (by decide) (by decide)).1,
    (c8_validation_after_allocation fixedPrice "1234" 1000 bookDB bookPayloadNoUser
      (by decide) (by decide)).2.2.2.2.2.2.2.2.2.2.2⟩

/-- C9 counterexample: the fare is not strictly positive for every strictly
positive distance, and a negative cached price is not replaced by the
default.  At one hundredth of a kilometre on a bike the computed fare
rounds to 0; and with a cached taxi price of minus 40 the completion price
stays minus 40 instead of falling back to the default 40. -/
theorem c9_positive_km_zero_fare_counterexample :
    ((0 : Rat) < 1/100) ∧
    completionFare noPrices "bike" (1/100) = 0 ∧
    ¬ (0 < completionFare noPrices "bike" (1/100)) ∧
    negTaxiPrices "taxi" = some (-40) ∧ ((-40 : Rat) < 0) ∧
    completionPricePerKm negTaxiPrices "taxi" = -40 ∧
    fallbackPricePerKm "taxi" = 40 := by
  refine ⟨by norm_num, ?_, ?_, by simp [negTaxiPrices], by norm_num, ?_,
    by simp [fallbackPricePerKm]⟩
  · norm_num [completionFare, completionPricePerKm, noPrices, fallbackPricePerKm, jsRound,
      Int.floor_eq_iff]
  · norm_num [completionFare, completionPricePerKm, noPrices, fallbackPricePerKm, jsRound,
      Int.floor_eq_iff]
  · norm_num [completionPricePerKm, negTaxiPrices]

/-- C9 (amended): the completion fare is round(km times the effective per-km
price); the defaults bike 15, taxi 40, port 75 apply exactly when the
cached price is missing or zero (a strictly negative cached price is kept);
the result is strictly positive whenever km times the effective price is at
least one half, and non-negative whenever that product is non-negative. -/
theorem c9_fare_formula_and_fallback (prices : PriceCache) (vt : String) (km : Rat) :
    ((prices vt).getD 0 = 0 →
      completionFare prices vt km = jsRound (km * fallbackPricePerKm vt)) ∧
    (1/2 ≤ km * completionPricePerKm prices vt → 0 < completionFare prices vt km) ∧
    (0 ≤ km * completionPricePerKm prices vt → 0 ≤ completionFare prices vt km) := by
  refine ⟨?_, ?_, ?_⟩
  · intro h0
    unfold completionFare completionPricePerKm
    rw [h0]
    simp
  · intro hge
    unfold completionFare jsRound
    have hfl : (1 : Int) ≤ Int.floor (km * completionPricePerKm prices vt + 1/2) := by
      rw [Int.le_floor]
      push_cast
      linarith
    omega
  · intro hge
    unfold completionFare jsRound
    have hfl : (0 : Int) ≤ Int.floor (km * completionPricePerKm prices vt + 1/2) := by
      rw [Int.le_floor]
      push_cast
      linarith
    omega

/-- C9 witness: the fare-formula theorem applied to an empty cache, bike,
and one kilometre: the fallback applies and the fare 15 is positive. -/
theorem c9_fare_formula_and_fallback_witness :
    ((noPrices "bike").getD 0 = 0 ∧
      completionFare noPrices "bike" 1 = jsRound (1 * fallbackPricePerKm "bike")) ∧
    ((1 : Rat)/2 ≤ 1 * completionPricePerKm noPrices "bike" ∧
      0 < completionFare noPrices "bike" 1) :=
  ⟨⟨by decide, (c9_fare_formula_and_fallback noPrices "bike" 1).1 (by decide)⟩,
    ⟨by norm_num [completionPricePerKm, noPrices, fallbackPricePerKm],
      (c9_fare_formula_and_fallback noPrices "bike" 1).2.1
        (by norm_num [completionPricePerKm, noPrices, fallbackPricePerKm])⟩⟩

/-- C10: requestRideOTP discloses the otp to any session.  For an existing
ride, the handler acknowledges success with the stored otp no matter which
session asks — it consults nothing about the caller — so two distinct
sessions requesting the same rideId receive identical acknowledgements. -/
theorem c10_otp_returned_to_any_session (db : DB) (rid : Option String)
    (sessionA sessionB : String) (ride : Ride)
    (htr : strTruthy rid = true)
    (hr : db.rides.find? (fun r => r.raidId == rid.getD "") = some ride) :
    (requestRideOTP db sessionA rid).ack = { success := true, otp := some ride.otp } ∧
    (requestRideOTP db sessionA rid).emissions =
      [ { event := "rideOTPUpdate", room := sessionA } ] ∧
    (requestRideOTP db sessionB rid).ack = (requestRideOTP db sessionA rid).ack := by
  unfold requestRideOTP
  rw [htr]
  simp [hr]

/-- C10 witness: two different sessions asking for the cash ride's otp both
receive success with otp 0065. -/
theorem c10_otp_returned_to_any_session_witness :
    strTruthy (some "RID000101") = true ∧
    (requestRideOTP cashDB "sockA" (some "RID000101")).ack =
      { success := true, otp := some "0065" } ∧
    (requestRideOTP cashDB "sockB" (some "RID000101")).ack =
      (requestRideOTP cashDB "sockA" (some "RID000101")).ack := by
  refine ⟨by decide, ?_, ?_⟩
  · exact (c10_otp_returned_to_any_session cashDB (some "RID000101") "sockA" "sockB"
      cashRide (by decide) (by decide)).1
  · exact (c10_otp_returned_to_any_session cashDB (some "RID000101") "sockA" "sockB"
      cashRide (by decide) (by decide)).2.2

end BeSafe
